import Mathlib

/-!
Shallow embedding of the sliprezi stripe backend (src/server.js, the
deferred-charge revision, called V1 below, and src/unnamed/part_000, the
immediate-authorization revision, called V0 below).  External collaborators
(the Stripe SDK and the GAS reservation Ledger) are modelled by explicit
world records supplying the outcome of each outbound call; every handler is
a pure function from environment, world and request to a result recording
the HTTP status, the response body, the processor calls attempted and the
Ledger calls attempted, in order.
-/

namespace Sliprezi

/-- Model of a JavaScript number as it matters here: either a finite value
(modelled as a rational, since JS numbers are not integers) or a non-finite
value (NaN, Infinity, -Infinity). -/
inductive JsNum where
  | finite (q : ℚ)
  | nonFinite
deriving DecidableEq, Repr

/-- Amount validation shared by POST /approve (server.js lines 341-343) and
POST /create-checkout-session in part_000 (lines 155-157):
Number.isFinite(Number(amount_cents)) ? Math.max(50, Math.floor(Number(amount_cents))) : 0.
The Option models a possibly absent body field: Number(undefined) is NaN,
hence non-finite. -/
def clampedAmount : Option JsNum → Int
  | some (JsNum.finite q) => max 50 ⌊q⌋
  | _ => 0

/-- Fee helper, server.js lines 458-463.  APPLICATION_FEE_BPS and
APPLICATION_FEE_CENTS_FIXED are configured as non-negative numbers; the two
guards add each term only when the corresponding knob is strictly positive. -/
def computeApplicationFee (bps fixedFee : ℕ) (amountCents : Int) : Int :=
  let fee : Int := 0
  let fee := if bps > 0 then fee + (amountCents * bps) / 10000 else fee
  let fee := if fixedFee > 0 then fee + fixedFee else fee
  fee

/-- Idempotency key of the off-session charge, server.js line 370. -/
def approveIdemKey (reservationId : String) (amount : Int) : String :=
  "approve_" ++ reservationId ++ "_" ++ toString amount

/-- Idempotency key of the SCA fallback checkout session, server.js line 394. -/
def scaIdemKey (reservationId : String) (amount : Int) : String :=
  "sca_" ++ reservationId ++ "_" ++ toString amount

/-- One outbound GET to the GAS Ledger, identified by its action
discriminator and its query parameters. -/
inductive LedgerCall where
  | getpayinfo (reservationId : String)
  | getacct (location : String)
  | setpreauth (reservationId status : String)
  | attachpi (reservationId paymentIntentId status : String)
  | savesetup (reservationId customerId paymentMethodId accountId : String)
deriving DecidableEq, Repr

/-- One outbound call to the payment processor that the claims inspect. -/
inductive ProcCall where
  | chargeCreate (amount : Int) (customerId paymentMethodId : String)
      (transferDestination : Option String) (applicationFeeAmount : Option Int)
      (idempotencyKey : String)
  | paymentSessionCreate (unitAmount : Int) (idempotencyKey : Option String)
  | scaSessionCreate (paymentIntentId : String) (idempotencyKey : String)
deriving DecidableEq, Repr

/-- The Ledger viewed abstractly: a map from reservation id to its
preauth status. -/
def Ledger := String → Option String

/-- Effect of one Ledger call on the preauth-status column: setpreauth and
attachpi write the given status for the reservation (last-write-wins);
the other actions do not touch that column. -/
def applyLedgerCall (L : Ledger) : LedgerCall → Ledger
  | LedgerCall.setpreauth rid st => fun r => if r = rid then some st else L r
  | LedgerCall.attachpi rid _ st => fun r => if r = rid then some st else L r
  | _ => L

/-- Effect of a sequence of Ledger calls, applied in order. -/
def applyLedgerCalls (L : Ledger) (cs : List LedgerCall) : Ledger :=
  cs.foldl applyLedgerCall L

/-- Saved payment artifacts returned by the Ledger getpayinfo action
(server.js lines 520-532).  Absent JSON fields are modelled as the empty
string, which is exactly what the falsy checks in the handler test. -/
structure PayInfo where
  customer_id : String := ""
  payment_method_id : String := ""
  connected_account_id : String := ""
deriving DecidableEq, Repr

/-- The payment intent carried on a Stripe charge error object
(server.js lines 378-379 read e.payment_intent and its status). -/
structure ChargeErrPI where
  id : String
  status : String
deriving DecidableEq, Repr

/-- A Stripe error thrown by paymentIntents.create, as the /approve catch
block reads it: an error code, a message, and an optional payment intent. -/
structure ChargeErr where
  code : String := ""
  message : String := ""
  payment_intent : Option ChargeErrPI := none
deriving DecidableEq, Repr

/-- Outcome of the create-and-confirm charge call. -/
inductive ChargeOutcome where
  | ok (paymentIntentId : String)
  | err (e : ChargeErr)
deriving DecidableEq, Repr

/-- Environment configuration read by the /approve handler. -/
structure ApproveEnv where
  gasUrl : String
  feeBps : ℕ
  feeFixed : ℕ
deriving DecidableEq, Repr

/-- Behaviour of the external collaborators during one /approve request.
payinfoResp is the parsed JSON of the getpayinfo fetch, with Except.error
modelling a rejected fetch (fetchJSON only catches parse errors, not
network errors); acctResp is the account id field of the getacct response
(getStripeAccountIdForLocation catches its own errors and yields null);
scaSession is the SCA fallback checkout session creation;
setpreauthThrows models a rejected setPreauthStatus fetch on the success
and action-required paths (the failed path swallows it with catch). -/
structure ApproveWorld where
  payinfoResp : Except Unit (Option PayInfo)
  acctResp : Option String
  chargeOutcome : ChargeOutcome
  scaSession : Except Unit String
  setpreauthThrows : Bool
deriving Repr

/-- Body of POST /approve (server.js line 338).  A missing reservation_id
is the empty string, which is what the falsy check tests; amount_cents is
optionally present. -/
structure ApproveReq where
  reservation_id : String := ""
  amount_cents : Option JsNum := none
  location : String := ""
deriving DecidableEq, Repr

/-- Response bodies the /approve handler can produce. -/
inductive ApproveBody where
  | error (code : String)
  | succeeded (paymentIntentId : String)
  | actionRequired (url : String)
  | failed (message : String)
deriving DecidableEq, Repr

/-- Result of one /approve request: HTTP status, body, processor calls
attempted and Ledger calls attempted, each in order of attempt. -/
structure ApproveResult where
  status : ℕ
  body : ApproveBody
  procCalls : List ProcCall
  ledgerCalls : List LedgerCall
deriving DecidableEq, Repr

/-- POST /approve handler, server.js lines 336-407, as a pure function of
the environment, the collaborator behaviour and the request. -/
def approveHandler (env : ApproveEnv) (w : ApproveWorld) (req : ApproveReq) :
    ApproveResult :=
  if req.reservation_id = "" then
    ⟨400, ApproveBody.error "missing reservation_id", [], []⟩
  else
    let amount := clampedAmount req.amount_cents
    if amount = 0 then
      ⟨400, ApproveBody.error "invalid amount_cents", [], []⟩
    else
      -- getPaymentInfoForReservation (lines 524-532): no GAS URL means null
      -- with no fetch; otherwise one getpayinfo fetch that may reject.
      match (if env.gasUrl = "" then Except.ok (none, ([] : List LedgerCall))
             else match w.payinfoResp with
                  | Except.error _ =>
                      (Except.error [LedgerCall.getpayinfo req.reservation_id] :
                        Except (List LedgerCall) (Option PayInfo × List LedgerCall))
                  | Except.ok p => Except.ok (p, [LedgerCall.getpayinfo req.reservation_id])) with
      | Except.error calls =>
          -- the rejected fetch escapes to the outer catch: 500 approve_failed
          ⟨500, ApproveBody.error "approve_failed", [], calls⟩
      | Except.ok (payinfo, payinfoCalls) =>
        -- the falsy test !payinfo?.customer_id || !payinfo?.payment_method_id
        match payinfo with
        | none => ⟨400, ApproveBody.error "missing_customer_or_payment_method", [], payinfoCalls⟩
        | some info =>
          if info.customer_id = "" ∨ info.payment_method_id = "" then
            ⟨400, ApproveBody.error "missing_customer_or_payment_method", [], payinfoCalls⟩
          else
            -- connectedAccountId := payinfo.connected_account_id ||
            --   (location ? getStripeAccountIdForLocation(location) : null)
            let acctStep : Option String × List LedgerCall :=
              if info.connected_account_id ≠ "" then (some info.connected_account_id, [])
              else if req.location ≠ "" then
                if env.gasUrl = "" then (none, [])
                else
                  (match w.acctResp with
                   | some a => if a.startsWith "acct_" then some a else none
                   | none => none,
                   [LedgerCall.getacct req.location])
              else (none, [])
            let connectedAccountId := acctStep.1
            let readCalls := payinfoCalls ++ acctStep.2
            let applicationFeeAmount := computeApplicationFee env.feeBps env.feeFixed amount
            let chargeCall := ProcCall.chargeCreate amount info.customer_id
                info.payment_method_id connectedAccountId
                (if connectedAccountId.isSome ∧ applicationFeeAmount > 0
                 then some applicationFeeAmount else none)
                (approveIdemKey req.reservation_id amount)
            match w.chargeOutcome with
            | ChargeOutcome.ok piId =>
                let writes := if env.gasUrl = "" then [] else
                  [LedgerCall.setpreauth req.reservation_id "paid"]
                if env.gasUrl ≠ "" ∧ w.setpreauthThrows then
                  ⟨500, ApproveBody.error "approve_failed", [chargeCall], readCalls ++ writes⟩
                else
                  ⟨200, ApproveBody.succeeded piId, [chargeCall], readCalls ++ writes⟩
            | ChargeOutcome.err e =>
                match e.payment_intent with
                | some pi =>
                  if e.code = "authentication_required" ∨ pi.status = "requires_action" then
                    match w.scaSession with
                    | Except.error _ =>
                        ⟨500, ApproveBody.error "approve_failed",
                          [chargeCall,
                           ProcCall.scaSessionCreate pi.id
                             (scaIdemKey req.reservation_id amount)], readCalls⟩
                    | Except.ok url =>
                        let writes := if env.gasUrl = "" then [] else
                          [LedgerCall.setpreauth req.reservation_id "payment_action_required"]
                        if env.gasUrl ≠ "" ∧ w.setpreauthThrows then
                          ⟨500, ApproveBody.error "approve_failed",
                            [chargeCall,
                             ProcCall.scaSessionCreate pi.id
                               (scaIdemKey req.reservation_id amount)],
                            readCalls ++ writes⟩
                        else
                          ⟨200, ApproveBody.actionRequired url,
                            [chargeCall,
                             ProcCall.scaSessionCreate pi.id
                               (scaIdemKey req.reservation_id amount)],
                            readCalls ++ writes⟩
                  else
                    ⟨400, ApproveBody.failed
                        (if e.message = "" then "charge_failed" else e.message),
                      [chargeCall],
                      readCalls ++ (if env.gasUrl = "" then [] else
                        [LedgerCall.setpreauth req.reservation_id "failed"])⟩
                | none =>
                    ⟨400, ApproveBody.failed
                        (if e.message = "" then "charge_failed" else e.message),
                      [chargeCall],
                      readCalls ++ (if env.gasUrl = "" then [] else
                        [LedgerCall.setpreauth req.reservation_id "failed"])⟩

/-- Body of POST /create-checkout-session in part_000 (lines 141-152), with
only the fields the claims exercise. -/
structure CreateReqV0 where
  amount_cents : Option JsNum := none
  location : String := ""
  email : String := ""
  reservation_id : String := ""
deriving DecidableEq, Repr

/-- Response bodies of the immediate-flow session creation. -/
inductive CreateBodyV0 where
  | error (code : String)
  | url (u : String)
deriving DecidableEq, Repr

/-- Result of one immediate-flow /create-checkout-session request. -/
structure CreateResultV0 where
  status : ℕ
  body : CreateBodyV0
  procCalls : List ProcCall
deriving DecidableEq, Repr

/-- POST /create-checkout-session handler of part_000 (lines 139-204):
validate and clamp the amount, then create one payment-mode checkout
session whose single line item uses the clamped amount as unit_amount,
with idempotency key checkout_(reservation_id) when a reservation id was
supplied.  The world argument is the outcome of the session creation. -/
def createCheckoutSessionV0 (sessionCreate : Except Unit String)
    (req : CreateReqV0) : CreateResultV0 :=
  let amount := clampedAmount req.amount_cents
  if amount = 0 then
    ⟨400, CreateBodyV0.error "Invalid amount_cents", []⟩
  else
    let call := ProcCall.paymentSessionCreate amount
      (if req.reservation_id ≠ "" then some ("checkout_" ++ req.reservation_id) else none)
    match sessionCreate with
    | Except.error _ => ⟨500, CreateBodyV0.error "create_session_failed", [call]⟩
    | Except.ok u => ⟨200, CreateBodyV0.url u, [call]⟩

/-- Checkout session object delivered inside a webhook event, with the
fields both webhook handlers read.  Absent fields are the empty string. -/
structure SessionObj where
  mode : String := ""
  client_reference_id : String := ""
  metadata_reservation_id : String := ""
  metadata_connected_account_id : String := ""
  setup_intent : String := ""
  payment_intent : String := ""
  customer : String := ""
  customer_details_id : String := ""
deriving DecidableEq, Repr

/-- Payment intent object delivered inside a webhook event. -/
structure IntentObj where
  id : String := ""
  metadata_reservation_id : String := ""
deriving DecidableEq, Repr

/-- The object carried by event.data.object. -/
inductive EventObj where
  | session (s : SessionObj)
  | intent (pi : IntentObj)
deriving DecidableEq, Repr

/-- A Stripe webhook event after successful signature verification. -/
structure Event where
  type : String
  object : EventObj
deriving DecidableEq, Repr

/-- Reservation id derivable from an event, exactly as both handlers
derive it: client_reference_id falling back to metadata.reservation_id for
session objects, metadata.reservation_id for payment intent objects. -/
def eventReservationId (ev : Event) : String :=
  match ev.object with
  | EventObj.session s =>
      if s.client_reference_id ≠ "" then s.client_reference_id
      else s.metadata_reservation_id
  | EventObj.intent pi => pi.metadata_reservation_id

/-- Setup intent returned by stripe.setupIntents.retrieve (server.js
line 92), with the fields the handler reads. -/
structure SetupIntentResp where
  customer : String := ""
  payment_method : String := ""
deriving DecidableEq, Repr

/-- Behaviour of the external collaborators during one webhook delivery:
siRetrieve is the setupIntents.retrieve outcome (Except.error models a
thrown SDK call), savesetupOk is whether the GAS savesetup response was ok
(a non-ok response makes saveSetupForReservation throw, cutting off the
following setpreauth call), and the two remaining flags model failures of
calls after which the handler attempts nothing further. -/
structure WebhookWorld where
  siRetrieve : Except Unit SetupIntentResp
  savesetupOk : Bool
  attachpiOk : Bool
  setpreauthThrows : Bool
deriving Repr

/-- Outcome of stripe.webhooks.constructEvent: a verified event, or a
thrown signature verification error. -/
inductive VerifyOutcome where
  | ok (ev : Event)
  | fail (message : String)
deriving Repr

/-- Result of one webhook delivery: HTTP status and the Ledger calls
attempted, in order. -/
structure WebhookResult where
  status : ℕ
  ledgerCalls : List LedgerCall
deriving DecidableEq, Repr

/-- Event dispatch of the server.js webhook handler (lines 81-121),
returning the Ledger calls attempted; a call whose failure the world
prescribes still appears (the fetch was issued) but no later call does. -/
def dispatchV1 (gasUrl : String) (w : WebhookWorld) (ev : Event) :
    List LedgerCall :=
  if ev.type = "checkout.session.completed" then
    match ev.object with
    | EventObj.session s =>
      if s.mode = "setup" then
        let reservationId :=
          if s.client_reference_id ≠ "" then s.client_reference_id
          else s.metadata_reservation_id
        let setupIntentId := s.setup_intent
        let customerId :=
          if s.customer ≠ "" then s.customer
          else if s.customer_details_id ≠ "" then s.customer_details_id
          else s.client_reference_id
        if reservationId ≠ "" ∧ setupIntentId ≠ "" then
          match w.siRetrieve with
          | Except.error _ => []
          | Except.ok si =>
            -- saveSetupForReservation (lines 506-518)
            if gasUrl = "" then []
            else
              let save := LedgerCall.savesetup reservationId
                (if si.customer ≠ "" then si.customer else customerId)
                si.payment_method s.metadata_connected_account_id
              if w.savesetupOk then
                [save, LedgerCall.setpreauth reservationId "card_on_file"]
              else [save]
        else []
      else []
    | EventObj.intent _ => []
  else if ev.type = "payment_intent.succeeded" then
    match ev.object with
    | EventObj.intent pi =>
      if pi.metadata_reservation_id ≠ "" then
        if gasUrl = "" then []
        else [LedgerCall.setpreauth pi.metadata_reservation_id "paid"]
      else []
    | EventObj.session _ => []
  else if ev.type = "payment_intent.payment_failed" then
    match ev.object with
    | EventObj.intent pi =>
      if pi.metadata_reservation_id ≠ "" then
        if gasUrl = "" then []
        else [LedgerCall.setpreauth pi.metadata_reservation_id "failed"]
      else []
    | EventObj.session _ => []
  else []

/-- Event dispatch of the part_000 webhook handler (lines 73-117). -/
def dispatchV0 (gasUrl : String) (ev : Event) : List LedgerCall :=
  if ev.type = "checkout.session.completed" then
    match ev.object with
    | EventObj.session s =>
      let reservationId :=
        if s.client_reference_id ≠ "" then s.client_reference_id
        else s.metadata_reservation_id
      let piId := s.payment_intent
      if reservationId ≠ "" ∧ piId ≠ "" then
        -- attachPIToReservation (lines 298-308)
        if gasUrl = "" then []
        else [LedgerCall.attachpi reservationId piId "requires_capture"]
      else []
    | EventObj.intent _ => []
  else if ev.type = "payment_intent.amount_capturable_updated" then
    match ev.object with
    | EventObj.intent pi =>
      if pi.metadata_reservation_id ≠ "" then
        if gasUrl = "" then []
        else [LedgerCall.attachpi pi.metadata_reservation_id pi.id "authorized"]
      else []
    | EventObj.session _ => []
  else if ev.type = "payment_intent.canceled" then
    match ev.object with
    | EventObj.intent pi =>
      if pi.metadata_reservation_id ≠ "" then
        if gasUrl = "" then []
        else [LedgerCall.setpreauth pi.metadata_reservation_id "released"]
      else []
    | EventObj.session _ => []
  else if ev.type = "payment_intent.succeeded" then
    match ev.object with
    | EventObj.intent pi =>
      if pi.metadata_reservation_id ≠ "" then
        if gasUrl = "" then []
        else [LedgerCall.setpreauth pi.metadata_reservation_id "captured"]
      else []
    | EventObj.session _ => []
  else if ev.type = "payment_intent.payment_failed" then
    match ev.object with
    | EventObj.intent pi =>
      if pi.metadata_reservation_id ≠ "" then
        if gasUrl = "" then []
        else [LedgerCall.setpreauth pi.metadata_reservation_id "failed"]
      else []
    | EventObj.session _ => []
  else []

/-- POST /stripe-webhook handler of server.js (lines 64-128): with no
configured secret, 200 ignored before anything else; on a verification
failure, 400 with no dispatch; otherwise dispatch inside a catch-all and
acknowledge 200 regardless of the dispatch outcome. -/
def stripeWebhookV1 (secret gasUrl : String) (w : WebhookWorld)
    (v : VerifyOutcome) : WebhookResult :=
  if secret = "" then ⟨200, []⟩
  else
    match v with
    | VerifyOutcome.fail _ => ⟨400, []⟩
    | VerifyOutcome.ok ev => ⟨200, dispatchV1 gasUrl w ev⟩

/-- POST /stripe-webhook handler of part_000 (lines 56-124), same shell
around the V0 dispatch. -/
def stripeWebhookV0 (secret gasUrl : String) (v : VerifyOutcome) :
    WebhookResult :=
  if secret = "" then ⟨200, []⟩
  else
    match v with
    | VerifyOutcome.fail _ => ⟨400, []⟩
    | VerifyOutcome.ok ev => ⟨200, dispatchV0 gasUrl ev⟩

/-! ## Helper lemmas shared by several claims -/

/-- The fee helper computes floor division plus the fixed part, with no
case distinction needed on the two guards. -/
theorem computeApplicationFee_eq (r f : ℕ) (a : Int) :
    computeApplicationFee r f a = (a * r) / 10000 + f := by
  unfold computeApplicationFee
  rcases Nat.eq_zero_or_pos r with hr | hr
  · rcases Nat.eq_zero_or_pos f with hf | hf
    · simp [hr, hf]
    · simp [hr, hf]
  · rcases Nat.eq_zero_or_pos f with hf | hf
    · simp [hr, hf]
    · simp [hr, hf]

/-- Integer division by 10000 agrees with the real floor that Math.floor
computes on the rational quotient. -/
theorem intDiv_10000_eq_floor (n : Int) : n / 10000 = ⌊(n : ℚ) / 10000⌋ := by
  have h := Rat.floor_intCast_div_natCast n 10000
  norm_num at h
  exact h.symm

/-- Every chargeCreate call the /approve handler attempts carries the
clamped amount, the fee parameter derived from its own transfer
destination and the computed fee, and the deterministic idempotency key. -/
theorem approve_chargeCreate_spec (env : ApproveEnv) (w : ApproveWorld)
    (req : ApproveReq) (amt : Int) (cust pm : String) (dest : Option String)
    (feeParam : Option Int) (key : String)
    (hmem : ProcCall.chargeCreate amt cust pm dest feeParam key ∈
      (approveHandler env w req).procCalls) :
    amt = clampedAmount req.amount_cents
    ∧ key = approveIdemKey req.reservation_id (clampedAmount req.amount_cents)
    ∧ feeParam = (if dest.isSome ∧ 0 < computeApplicationFee env.feeBps env.feeFixed amt
                  then some (computeApplicationFee env.feeBps env.feeFixed amt)
                  else none) := by
  obtain ⟨gasUrl, feeBps, feeFixed⟩ := env
  obtain ⟨pinfo, acct, outc, sca, thr⟩ := w
  obtain ⟨rid, amc, loc⟩ := req
  by_cases h1 : rid = ""
  · simp [approveHandler, h1] at hmem
  by_cases h2 : clampedAmount amc = 0
  · simp [approveHandler, h1, h2] at hmem
  by_cases hg : gasUrl = ""
  · simp [approveHandler, h1, h2, hg] at hmem
  rcases pinfo with e | p
  · simp [approveHandler, h1, h2, hg] at hmem
  rcases p with _ | info
  · simp [approveHandler, h1, h2, hg] at hmem
  by_cases hcp : info.customer_id = "" ∨ info.payment_method_id = ""
  · simp [approveHandler, h1, h2, hg, hcp] at hmem
  rcases outc with piId | e2
  · cases thr <;>
    · simp [approveHandler, h1, h2, hg, hcp] at hmem
      obtain ⟨ha, hc, hp, hd, hf, hk⟩ := hmem
      subst ha; subst hd; subst hf; subst hk
      exact ⟨rfl, rfl, rfl⟩
  obtain ⟨code, msg, epi⟩ := e2
  rcases epi with _ | pi
  · simp [approveHandler, h1, h2, hg, hcp] at hmem
    obtain ⟨ha, hc, hp, hd, hf, hk⟩ := hmem
    subst ha; subst hd; subst hf; subst hk
    exact ⟨rfl, rfl, rfl⟩
  by_cases hauth : code = "authentication_required" ∨ pi.status = "requires_action"
  · rcases sca with _ | url
    · simp [approveHandler, h1, h2, hg, hcp, hauth] at hmem
      obtain ⟨ha, hc, hp, hd, hf, hk⟩ := hmem
      subst ha; subst hd; subst hf; subst hk
      exact ⟨rfl, rfl, rfl⟩
    · cases thr <;>
      · simp [approveHandler, h1, h2, hg, hcp, hauth] at hmem
        obtain ⟨ha, hc, hp, hd, hf, hk⟩ := hmem
        subst ha; subst hd; subst hf; subst hk
        exact ⟨rfl, rfl, rfl⟩
  · simp [approveHandler, h1, h2, hg, hcp, hauth] at hmem
    obtain ⟨ha, hc, hp, hd, hf, hk⟩ := hmem
    subst ha; subst hd; subst hf; subst hk
    exact ⟨rfl, rfl, rfl⟩

/-! ## Claims -/

/-- C1: the application-fee computation is the pure function
fee = floor(amount_cents * r / 10000) + f over the basis-points rate r and
fixed fee f, matching the four quoted examples, and every /approve charge
omits the application_fee_amount parameter entirely whenever no connected
account id is present or the computed fee is non-positive. -/
theorem C1_fee_formula_and_omission :
    (∀ (r f : ℕ) (a : Int),
      computeApplicationFee r f a = ⌊((a : ℚ) * (r : ℚ)) / 10000⌋ + f)
    ∧ computeApplicationFee 250 0 10000 = 250
    ∧ computeApplicationFee 0 99 10000 = 99
    ∧ computeApplicationFee 250 0 100 = 2
    ∧ (∀ a : Int, computeApplicationFee 0 0 a = 0)
    ∧ (∀ (env : ApproveEnv) (w : ApproveWorld) (req : ApproveReq)
        (amt : Int) (cust pm : String) (dest : Option String)
        (feeParam : Option Int) (key : String),
        ProcCall.chargeCreate amt cust pm dest feeParam key ∈
          (approveHandler env w req).procCalls →
        dest = none ∨ computeApplicationFee env.feeBps env.feeFixed amt ≤ 0 →
        feeParam = none) := by
  refine ⟨?_, by decide, by decide, by decide, ?_, ?_⟩
  · intro r f a
    rw [computeApplicationFee_eq, intDiv_10000_eq_floor]
    push_cast
    ring_nf
  · intro a
    rw [computeApplicationFee_eq]
    simp
  · intro env w req amt cust pm dest feeParam key hmem hcond
    obtain ⟨-, -, hf⟩ :=
      approve_chargeCreate_spec env w req amt cust pm dest feeParam key hmem
    rcases hcond with hd | hle
    · subst hd
      simpa using hf
    · rw [hf, if_neg]
      rintro ⟨-, hlt⟩
      exact absurd hlt (not_lt.mpr hle)

/-- Closed instance of C1: at amount 500 with a 250 bps rate the computed
fee is positive, yet the charge created by a run with no connected account
carries no fee parameter. -/
theorem C1_fee_witness :
    (0 : Int) < computeApplicationFee 250 0 500
    ∧ ProcCall.chargeCreate 500 "cus_1" "pm_1" none none "approve_R1_500" ∈
        (approveHandler ⟨"https://g", 250, 0⟩
          ⟨Except.ok (some ⟨"cus_1", "pm_1", ""⟩), none,
            ChargeOutcome.ok "pi_1", Except.ok "u", false⟩
          ⟨"R1", some (JsNum.finite 500), ""⟩).procCalls
    ∧ (none : Option Int) = none := by
  refine ⟨by decide, by decide, ?_⟩
  exact C1_fee_formula_and_omission.2.2.2.2.2
    ⟨"https://g", 250, 0⟩
    ⟨Except.ok (some ⟨"cus_1", "pm_1", ""⟩), none,
      ChargeOutcome.ok "pi_1", Except.ok "u", false⟩
    ⟨"R1", some (JsNum.finite 500), ""⟩
    500 "cus_1" "pm_1" none none "approve_R1_500" (by decide) (Or.inl rfl)

/-- C2: for both the immediate-flow session creation and /approve, a
finite amount_cents is used as max(50, floor(amount_cents)) in the
processor call, and a non-finite or missing amount_cents is rejected with
a 400 validation error before any processor or Ledger call is made. -/
theorem C2_amount_clamp_and_rejection :
    (∀ q : ℚ, clampedAmount (some (JsNum.finite q)) = max 50 ⌊q⌋)
    ∧ (∀ (sc : Except Unit String) (req : CreateReqV0),
        req.amount_cents = none ∨ req.amount_cents = some JsNum.nonFinite →
        (createCheckoutSessionV0 sc req).status = 400
        ∧ (createCheckoutSessionV0 sc req).body = CreateBodyV0.error "Invalid amount_cents"
        ∧ (createCheckoutSessionV0 sc req).procCalls = [])
    ∧ (∀ (sc : Except Unit String) (req : CreateReqV0) (q : ℚ)
        (ua : Int) (k : Option String),
        req.amount_cents = some (JsNum.finite q) →
        ProcCall.paymentSessionCreate ua k ∈ (createCheckoutSessionV0 sc req).procCalls →
        ua = max 50 ⌊q⌋)
    ∧ (∀ (env : ApproveEnv) (w : ApproveWorld) (req : ApproveReq),
        req.amount_cents = none ∨ req.amount_cents = some JsNum.nonFinite →
        (approveHandler env w req).status = 400
        ∧ (approveHandler env w req).procCalls = []
        ∧ (approveHandler env w req).ledgerCalls = [])
    ∧ (∀ (env : ApproveEnv) (w : ApproveWorld) (req : ApproveReq) (q : ℚ)
        (amt : Int) (cust pm : String) (dest : Option String)
        (feeParam : Option Int) (key : String),
        req.amount_cents = some (JsNum.finite q) →
        ProcCall.chargeCreate amt cust pm dest feeParam key ∈
          (approveHandler env w req).procCalls →
        amt = max 50 ⌊q⌋) := by
  refine ⟨fun q => rfl, ?_, ?_, ?_, ?_⟩
  · intro sc req hreq
    rcases hreq with h | h <;>
      simp [createCheckoutSessionV0, h, clampedAmount]
  · intro sc req q ua k hq hmem
    unfold createCheckoutSessionV0 at hmem
    rw [hq] at hmem
    by_cases h0 : clampedAmount (some (JsNum.finite q)) = 0
    · simp [h0] at hmem
    · rcases sc with e | u <;> simp [h0] at hmem <;> exact hmem.1
  · intro env w req hreq
    by_cases h1 : req.reservation_id = ""
    · simp [approveHandler, h1]
    · rcases hreq with h | h <;>
        simp [approveHandler, h1, h, clampedAmount]
  · intro env w req q amt cust pm dest feeParam key hq hmem
    have h := (approve_chargeCreate_spec env w req amt cust pm dest feeParam key hmem).1
    rw [hq] at h
    exact h

/-- Closed instance of C2: an amount of 30.5 cents is clamped to the
50 cent minimum, and a missing amount is rejected by /approve with no
processor and no Ledger call. -/
theorem C2_amount_witness :
    clampedAmount (some (JsNum.finite (61/2))) = max 50 ⌊(61/2 : ℚ)⌋
    ∧ max 50 ⌊(61/2 : ℚ)⌋ = 50
    ∧ (approveHandler ⟨"https://g", 0, 0⟩
        ⟨Except.ok none, none, ChargeOutcome.ok "pi_1", Except.ok "u", false⟩
        ⟨"R1", none, ""⟩).status = 400
    ∧ (approveHandler ⟨"https://g", 0, 0⟩
        ⟨Except.ok none, none, ChargeOutcome.ok "pi_1", Except.ok "u", false⟩
        ⟨"R1", none, ""⟩).procCalls = [] := by
  refine ⟨C2_amount_clamp_and_rejection.1 (61/2), by norm_num, ?_, ?_⟩
  · exact (C2_amount_clamp_and_rejection.2.2.2.1 ⟨"https://g", 0, 0⟩
      ⟨Except.ok none, none, ChargeOutcome.ok "pi_1", Except.ok "u", false⟩
      ⟨"R1", none, ""⟩ (Or.inl rfl)).1
  · exact (C2_amount_clamp_and_rejection.2.2.2.1 ⟨"https://g", 0, 0⟩
      ⟨Except.ok none, none, ChargeOutcome.ok "pi_1", Except.ok "u", false⟩
      ⟨"R1", none, ""⟩ (Or.inl rfl)).2.1

/-- C3: the idempotency key of the off-session charge is the deterministic
function approve_(reservation_id)_(clamped amount) of the reservation id
and the clamped amount, so any two /approve executions with the same
reservation_id and the same amount_cents attach the identical key to their
charge attempts. -/
theorem C3_approve_idempotency_key :
    (∀ (env : ApproveEnv) (w : ApproveWorld) (req : ApproveReq)
        (amt : Int) (cust pm : String) (dest : Option String)
        (feeParam : Option Int) (key : String),
        ProcCall.chargeCreate amt cust pm dest feeParam key ∈
          (approveHandler env w req).procCalls →
        key = approveIdemKey req.reservation_id (clampedAmount req.amount_cents))
    ∧ (∀ (env1 env2 : ApproveEnv) (w1 w2 : ApproveWorld) (req1 req2 : ApproveReq)
        (amt1 amt2 : Int) (cust1 cust2 pm1 pm2 : String)
        (dest1 dest2 : Option String) (feeParam1 feeParam2 : Option Int)
        (key1 key2 : String),
        req1.reservation_id = req2.reservation_id →
        req1.amount_cents = req2.amount_cents →
        ProcCall.chargeCreate amt1 cust1 pm1 dest1 feeParam1 key1 ∈
          (approveHandler env1 w1 req1).procCalls →
        ProcCall.chargeCreate amt2 cust2 pm2 dest2 feeParam2 key2 ∈
          (approveHandler env2 w2 req2).procCalls →
        key1 = key2) := by
  have hkey : ∀ (env : ApproveEnv) (w : ApproveWorld) (req : ApproveReq)
      (amt : Int) (cust pm : String) (dest : Option String)
      (feeParam : Option Int) (key : String),
      ProcCall.chargeCreate amt cust pm dest feeParam key ∈
        (approveHandler env w req).procCalls →
      key = approveIdemKey req.reservation_id (clampedAmount req.amount_cents) :=
    fun env w req amt cust pm dest feeParam key hmem =>
      (approve_chargeCreate_spec env w req amt cust pm dest feeParam key hmem).2.1
  refine ⟨hkey, ?_⟩
  intro env1 env2 w1 w2 req1 req2 amt1 amt2 cust1 cust2 pm1 pm2
    dest1 dest2 feeParam1 feeParam2 key1 key2 hrid hamt hm1 hm2
  rw [hkey env1 w1 req1 amt1 cust1 pm1 dest1 feeParam1 key1 hm1,
    hkey env2 w2 req2 amt2 cust2 pm2 dest2 feeParam2 key2 hm2, hrid, hamt]

/-- Closed instance of C3: two /approve executions for reservation R1 at
amount 500, one succeeding and one failing at the processor, derive the
identical idempotency key. -/
theorem C3_idempotency_witness :
    "approve_R1_500" = "approve_R1_500"
    ∧ ProcCall.chargeCreate 500 "cus_1" "pm_1" none none "approve_R1_500" ∈
        (approveHandler ⟨"https://g", 0, 0⟩
          ⟨Except.ok (some ⟨"cus_1", "pm_1", ""⟩), none,
            ChargeOutcome.ok "pi_1", Except.ok "u", false⟩
          ⟨"R1", some (JsNum.finite 500), ""⟩).procCalls
    ∧ ProcCall.chargeCreate 500 "cus_1" "pm_1" none none "approve_R1_500" ∈
        (approveHandler ⟨"https://g", 0, 0⟩
          ⟨Except.ok (some ⟨"cus_1", "pm_1", ""⟩), none,
            ChargeOutcome.err ⟨"card_declined", "declined", none⟩,
            Except.ok "u", false⟩
          ⟨"R1", some (JsNum.finite 500), ""⟩).procCalls := by
  refine ⟨?_, by decide, by decide⟩
  exact C3_approve_idempotency_key.2
    ⟨"https://g", 0, 0⟩ ⟨"https://g", 0, 0⟩
    ⟨Except.ok (some ⟨"cus_1", "pm_1", ""⟩), none,
      ChargeOutcome.ok "pi_1", Except.ok "u", false⟩
    ⟨Except.ok (some ⟨"cus_1", "pm_1", ""⟩), none,
      ChargeOutcome.err ⟨"card_declined", "declined", none⟩,
      Except.ok "u", false⟩
    ⟨"R1", some (JsNum.finite 500), ""⟩
    ⟨"R1", some (JsNum.finite 500), ""⟩
    500 500 "cus_1" "cus_1" "pm_1" "pm_1" none none none none
    "approve_R1_500" "approve_R1_500" rfl rfl (by decide) (by decide)

/-- An event with no derivable reservation id produces no Ledger call in
the server.js dispatch. -/
theorem dispatchV1_no_reservation (gasUrl : String) (w : WebhookWorld) (ev : Event)
    (hr : eventReservationId ev = "") : dispatchV1 gasUrl w ev = [] := by
  obtain ⟨ty, obj⟩ := ev
  rcases obj with s | pi
  · have hcri : s.client_reference_id = "" ∧ s.metadata_reservation_id = "" := by
      by_cases hc : s.client_reference_id = ""
      · simp [eventReservationId, hc] at hr
        exact ⟨hc, hr⟩
      · simp [eventReservationId, hc] at hr
    unfold dispatchV1
    simp [hcri.1, hcri.2]
  · have hmd : pi.metadata_reservation_id = "" := by
      simpa [eventReservationId] using hr
    unfold dispatchV1
    simp [hmd]

/-- An event with no derivable reservation id produces no Ledger call in
the part_000 dispatch. -/
theorem dispatchV0_no_reservation (gasUrl : String) (ev : Event)
    (hr : eventReservationId ev = "") : dispatchV0 gasUrl ev = [] := by
  obtain ⟨ty, obj⟩ := ev
  rcases obj with s | pi
  · have hcri : s.client_reference_id = "" ∧ s.metadata_reservation_id = "" := by
      by_cases hc : s.client_reference_id = ""
      · simp [eventReservationId, hc] at hr
        exact ⟨hc, hr⟩
      · simp [eventReservationId, hc] at hr
    unfold dispatchV0
    simp [hcri.1, hcri.2]
  · have hmd : pi.metadata_reservation_id = "" := by
      simpa [eventReservationId] using hr
    unfold dispatchV0
    simp [hmd]

/-- C4: with a configured secret, a notification whose signature fails
verification is answered 400 by both webhook handlers, with no Ledger call
issued, so any Ledger state is left unchanged. -/
theorem C4_webhook_bad_signature (secret gasUrl : String) (w : WebhookWorld)
    (msg : String) (h : secret ≠ "") :
    (stripeWebhookV1 secret gasUrl w (VerifyOutcome.fail msg)).status = 400
    ∧ (stripeWebhookV1 secret gasUrl w (VerifyOutcome.fail msg)).ledgerCalls = []
    ∧ (∀ L : Ledger,
        applyLedgerCalls L (stripeWebhookV1 secret gasUrl w (VerifyOutcome.fail msg)).ledgerCalls = L)
    ∧ (stripeWebhookV0 secret gasUrl (VerifyOutcome.fail msg)).status = 400
    ∧ (stripeWebhookV0 secret gasUrl (VerifyOutcome.fail msg)).ledgerCalls = []
    ∧ (∀ L : Ledger,
        applyLedgerCalls L (stripeWebhookV0 secret gasUrl (VerifyOutcome.fail msg)).ledgerCalls = L) := by
  simp [stripeWebhookV1, stripeWebhookV0, h, applyLedgerCalls]

/-- Closed instance of C4 at a concrete secret and failure message. -/
theorem C4_webhook_witness :
    (stripeWebhookV1 "whsec_1" "https://g"
      ⟨Except.ok ⟨"", ""⟩, true, true, false⟩ (VerifyOutcome.fail "bad sig")).status = 400
    ∧ (stripeWebhookV0 "whsec_1" "https://g" (VerifyOutcome.fail "bad sig")).status = 400
    ∧ (stripeWebhookV0 "whsec_1" "https://g" (VerifyOutcome.fail "bad sig")).ledgerCalls = [] := by
  have h := C4_webhook_bad_signature "whsec_1" "https://g"
    ⟨Except.ok ⟨"", ""⟩, true, true, false⟩ "bad sig" (by decide)
  exact ⟨h.1, h.2.2.2.1, h.2.2.2.2.1⟩

/-- C5: with no webhook secret configured, both handlers answer 200 to any
notification, independently of the verification outcome and the world, and
issue no Ledger call, leaving any Ledger state unchanged. -/
theorem C5_webhook_missing_secret (gasUrl : String) (w : WebhookWorld)
    (v : VerifyOutcome) :
    stripeWebhookV1 "" gasUrl w v = ⟨200, []⟩
    ∧ stripeWebhookV0 "" gasUrl v = ⟨200, []⟩
    ∧ (∀ L : Ledger,
        applyLedgerCalls L (stripeWebhookV1 "" gasUrl w v).ledgerCalls = L)
    ∧ (∀ L : Ledger,
        applyLedgerCalls L (stripeWebhookV0 "" gasUrl v).ledgerCalls = L) := by
  simp [stripeWebhookV1, stripeWebhookV0, applyLedgerCalls]

/-- C6: once the signature verifies, both handlers acknowledge 200 for
every event and every collaborator behaviour, including failing Ledger
writes and a failing setup-intent retrieval, and an event from which no
reservation id is derivable produces no Ledger call. -/
theorem C6_webhook_always_ack (secret gasUrl : String) (w : WebhookWorld)
    (ev : Event) (h : secret ≠ "") :
    (stripeWebhookV1 secret gasUrl w (VerifyOutcome.ok ev)).status = 200
    ∧ (stripeWebhookV0 secret gasUrl (VerifyOutcome.ok ev)).status = 200
    ∧ (eventReservationId ev = "" →
        (stripeWebhookV1 secret gasUrl w (VerifyOutcome.ok ev)).ledgerCalls = []
        ∧ (stripeWebhookV0 secret gasUrl (VerifyOutcome.ok ev)).ledgerCalls = []) := by
  refine ⟨by simp [stripeWebhookV1, h], by simp [stripeWebhookV0, h], fun hr => ⟨?_, ?_⟩⟩
  · simp [stripeWebhookV1, h, dispatchV1_no_reservation gasUrl w ev hr]
  · simp [stripeWebhookV0, h, dispatchV0_no_reservation gasUrl ev hr]

/-- Closed instance of C6: a verified event carrying no reservation id is
acknowledged 200 by both handlers with no Ledger call, in a world where
every Ledger write would fail. -/
theorem C6_webhook_witness :
    (stripeWebhookV1 "whsec_1" "https://g"
      ⟨Except.error (), false, false, true⟩
      (VerifyOutcome.ok ⟨"payment_intent.succeeded", EventObj.intent ⟨"pi_1", ""⟩⟩)).status = 200
    ∧ (stripeWebhookV0 "whsec_1" "https://g"
        (VerifyOutcome.ok ⟨"payment_intent.succeeded", EventObj.intent ⟨"pi_1", ""⟩⟩)).status = 200
    ∧ (stripeWebhookV1 "whsec_1" "https://g"
        ⟨Except.error (), false, false, true⟩
        (VerifyOutcome.ok ⟨"payment_intent.succeeded", EventObj.intent ⟨"pi_1", ""⟩⟩)).ledgerCalls = []
    ∧ (stripeWebhookV0 "whsec_1" "https://g"
        (VerifyOutcome.ok ⟨"payment_intent.succeeded", EventObj.intent ⟨"pi_1", ""⟩⟩)).ledgerCalls = [] := by
  have h := C6_webhook_always_ack "whsec_1" "https://g"
    ⟨Except.error (), false, false, true⟩
    ⟨"payment_intent.succeeded", EventObj.intent ⟨"pi_1", ""⟩⟩ (by decide)
  exact ⟨h.1, h.2.1, (h.2.2 rfl).1, (h.2.2 rfl).2⟩

/-- Applying any Ledger-call sequence ending in a setpreauth write for a
reservation leaves that reservation with the written status. -/
theorem applyLedgerCalls_last_setpreauth (L : Ledger) (cs : List LedgerCall)
    (rid st : String) :
    applyLedgerCalls L (cs ++ [LedgerCall.setpreauth rid st]) rid = some st := by
  unfold applyLedgerCalls
  rw [List.foldl_append]
  simp [applyLedgerCall]

/-- C7 counterexample: a verified amount-capturable-updated notification
for reservation R1 makes the Ledger receive an attachpi write carrying
status authorized, and no setpreauth write at all, so the claimed
setpreauth(R1, authorized) call is not issued. -/
theorem C7_counterexample :
    (stripeWebhookV0 "whsec_1" "https://g"
      (VerifyOutcome.ok ⟨"payment_intent.amount_capturable_updated",
        EventObj.intent ⟨"pi_1", "R1"⟩⟩)).ledgerCalls
      = [LedgerCall.attachpi "R1" "pi_1" "authorized"]
    ∧ LedgerCall.setpreauth "R1" "authorized" ∉
      (stripeWebhookV0 "whsec_1" "https://g"
        (VerifyOutcome.ok ⟨"payment_intent.amount_capturable_updated",
          EventObj.intent ⟨"pi_1", "R1"⟩⟩)).ledgerCalls := by
  refine ⟨by decide, by decide⟩

/-- C7 amended: for every verified payment_intent.amount_capturable_updated
notification whose payment intent carries a reservation id, the Ledger
receives exactly the write attachpi(reservation_id, payment_intent_id,
status = authorized) — the status is set to authorized through the attachpi
action, which also records the payment intent id, not through setpreauth. -/
theorem C7_amended_attachpi_authorized (secret gasUrl : String) (pi : IntentObj)
    (hs : secret ≠ "") (hg : gasUrl ≠ "") (hr : pi.metadata_reservation_id ≠ "") :
    (stripeWebhookV0 secret gasUrl (VerifyOutcome.ok
        ⟨"payment_intent.amount_capturable_updated", EventObj.intent pi⟩)).ledgerCalls
      = [LedgerCall.attachpi pi.metadata_reservation_id pi.id "authorized"]
    ∧ (stripeWebhookV0 secret gasUrl (VerifyOutcome.ok
        ⟨"payment_intent.amount_capturable_updated", EventObj.intent pi⟩)).status = 200
    ∧ (∀ L : Ledger,
        applyLedgerCalls L
          (stripeWebhookV0 secret gasUrl (VerifyOutcome.ok
            ⟨"payment_intent.amount_capturable_updated", EventObj.intent pi⟩)).ledgerCalls
          pi.metadata_reservation_id = some "authorized") := by
  refine ⟨?_, ?_, ?_⟩ <;>
    simp [stripeWebhookV0, dispatchV0, hs, hg, hr, applyLedgerCalls, applyLedgerCall]

/-- Closed instance of the amended C7 at reservation R1. -/
theorem C7_amended_witness :
    (stripeWebhookV0 "whsec_1" "https://g"
      (VerifyOutcome.ok ⟨"payment_intent.amount_capturable_updated",
        EventObj.intent ⟨"pi_1", "R1"⟩⟩)).status = 200
    ∧ (stripeWebhookV0 "whsec_1" "https://g"
        (VerifyOutcome.ok ⟨"payment_intent.amount_capturable_updated",
          EventObj.intent ⟨"pi_1", "R1"⟩⟩)).ledgerCalls
        = [LedgerCall.attachpi "R1" "pi_1" "authorized"] := by
  have h := C7_amended_attachpi_authorized "whsec_1" "https://g" ⟨"pi_1", "R1"⟩
    (by decide) (by decide) (by decide)
  exact ⟨h.2.1, h.1⟩

/-- C8: an /approve request with a valid reservation id and amount for
which the Ledger holds no stored payment method (no payinfo row, or a row
missing customer_id or payment_method_id) is answered 400 with code
missing_customer_or_payment_method, and no processor call is attempted. -/
theorem C8_missing_payment_method (env : ApproveEnv) (w : ApproveWorld)
    (req : ApproveReq) (infoOpt : Option PayInfo)
    (hrid : req.reservation_id ≠ "")
    (hamt : clampedAmount req.amount_cents ≠ 0)
    (hpi : w.payinfoResp = Except.ok infoOpt)
    (hmissing : ∀ i, infoOpt = some i →
      i.customer_id = "" ∨ i.payment_method_id = "") :
    (approveHandler env w req).status = 400
    ∧ (approveHandler env w req).body =
        ApproveBody.error "missing_customer_or_payment_method"
    ∧ (approveHandler env w req).procCalls = [] := by
  by_cases hg : env.gasUrl = ""
  · simp [approveHandler, hrid, hamt, hg]
  · rcases infoOpt with _ | info
    · simp [approveHandler, hrid, hamt, hg, hpi]
    · have hm := hmissing info rfl
      simp [approveHandler, hrid, hamt, hg, hpi, hm]

/-- Closed instance of C8: reservation R2 with no payinfo row on file. -/
theorem C8_missing_payment_method_witness :
    (approveHandler ⟨"https://g", 0, 0⟩
      ⟨Except.ok none, none, ChargeOutcome.ok "pi_1", Except.ok "u", false⟩
      ⟨"R2", some (JsNum.finite 500), "Pier7"⟩).status = 400
    ∧ (approveHandler ⟨"https://g", 0, 0⟩
        ⟨Except.ok none, none, ChargeOutcome.ok "pi_1", Except.ok "u", false⟩
        ⟨"R2", some (JsNum.finite 500), "Pier7"⟩).body =
        ApproveBody.error "missing_customer_or_payment_method"
    ∧ (approveHandler ⟨"https://g", 0, 0⟩
        ⟨Except.ok none, none, ChargeOutcome.ok "pi_1", Except.ok "u", false⟩
        ⟨"R2", some (JsNum.finite 500), "Pier7"⟩).procCalls = [] :=
  C8_missing_payment_method ⟨"https://g", 0, 0⟩
    ⟨Except.ok none, none, ChargeOutcome.ok "pi_1", Except.ok "u", false⟩
    ⟨"R2", some (JsNum.finite 500), "Pier7"⟩ none
    (by decide) (by decide) rfl (fun i h => by cases h)

/-- C9: when the charge attempt fails with an authentication-required
outcome carrying its payment intent, /approve creates the SCA fallback
checkout session for that same payment intent, writes Ledger status
payment_action_required for the reservation, and answers 200 with the
action_required body carrying the session url instead of a success
result. -/
theorem C9_action_required_fallback (env : ApproveEnv) (w : ApproveWorld)
    (req : ApproveReq) (info : PayInfo) (e : ChargeErr) (pi : ChargeErrPI)
    (url : String)
    (hrid : req.reservation_id ≠ "")
    (hamt : clampedAmount req.amount_cents ≠ 0)
    (hg : env.gasUrl ≠ "")
    (hpi : w.payinfoResp = Except.ok (some info))
    (hcust : ¬ info.customer_id = "")
    (hpm : ¬ info.payment_method_id = "")
    (hout : w.chargeOutcome = ChargeOutcome.err e)
    (hepi : e.payment_intent = some pi)
    (hauth : e.code = "authentication_required" ∨ pi.status = "requires_action")
    (hsca : w.scaSession = Except.ok url)
    (hthr : w.setpreauthThrows = false) :
    (approveHandler env w req).status = 200
    ∧ (approveHandler env w req).body = ApproveBody.actionRequired url
    ∧ ProcCall.scaSessionCreate pi.id
        (scaIdemKey req.reservation_id (clampedAmount req.amount_cents)) ∈
        (approveHandler env w req).procCalls
    ∧ LedgerCall.setpreauth req.reservation_id "payment_action_required" ∈
        (approveHandler env w req).ledgerCalls
    ∧ (∀ L : Ledger,
        applyLedgerCalls L (approveHandler env w req).ledgerCalls
          req.reservation_id = some "payment_action_required") := by
  refine ⟨?_, ?_, ?_, ?_, fun L => ?_⟩ <;>
  · by_cases hca : info.connected_account_id = ""
    · by_cases hloc : req.location = ""
      · simp [approveHandler, hrid, hamt, hg, hpi, hcust, hpm, hout, hepi,
          hauth, hsca, hthr, hca, hloc, applyLedgerCalls, applyLedgerCall]
      · rcases hacct : w.acctResp with _ | a
        · simp [approveHandler, hrid, hamt, hg, hpi, hcust, hpm, hout, hepi,
            hauth, hsca, hthr, hca, hloc, hacct, applyLedgerCalls, applyLedgerCall]
        · by_cases hsw : a.startsWith "acct_"
          · simp [approveHandler, hrid, hamt, hg, hpi, hcust, hpm, hout, hepi,
              hauth, hsca, hthr, hca, hloc, hacct, hsw, applyLedgerCalls, applyLedgerCall]
          · simp [approveHandler, hrid, hamt, hg, hpi, hcust, hpm, hout, hepi,
              hauth, hsca, hthr, hca, hloc, hacct, hsw, applyLedgerCalls, applyLedgerCall]
    · simp [approveHandler, hrid, hamt, hg, hpi, hcust, hpm, hout, hepi,
        hauth, hsca, hthr, hca, applyLedgerCalls, applyLedgerCall]

/-- Closed instance of C9: reservation R3, amount 500, a stored card, and
a processor answer of authentication_required. -/
theorem C9_action_required_witness :
    (approveHandler ⟨"https://g", 0, 0⟩
      ⟨Except.ok (some ⟨"cus_1", "pm_1", ""⟩), none,
        ChargeOutcome.err ⟨"authentication_required", "auth needed", some ⟨"pi_9", "requires_action"⟩⟩,
        Except.ok "https://pay.example/s1", false⟩
      ⟨"R3", some (JsNum.finite 500), ""⟩).status = 200
    ∧ (approveHandler ⟨"https://g", 0, 0⟩
        ⟨Except.ok (some ⟨"cus_1", "pm_1", ""⟩), none,
          ChargeOutcome.err ⟨"authentication_required", "auth needed", some ⟨"pi_9", "requires_action"⟩⟩,
          Except.ok "https://pay.example/s1", false⟩
        ⟨"R3", some (JsNum.finite 500), ""⟩).body =
        ApproveBody.actionRequired "https://pay.example/s1"
    ∧ LedgerCall.setpreauth "R3" "payment_action_required" ∈
        (approveHandler ⟨"https://g", 0, 0⟩
          ⟨Except.ok (some ⟨"cus_1", "pm_1", ""⟩), none,
            ChargeOutcome.err ⟨"authentication_required", "auth needed", some ⟨"pi_9", "requires_action"⟩⟩,
            Except.ok "https://pay.example/s1", false⟩
          ⟨"R3", some (JsNum.finite 500), ""⟩).ledgerCalls := by
  have h := C9_action_required_fallback ⟨"https://g", 0, 0⟩
    ⟨Except.ok (some ⟨"cus_1", "pm_1", ""⟩), none,
      ChargeOutcome.err ⟨"authentication_required", "auth needed", some ⟨"pi_9", "requires_action"⟩⟩,
      Except.ok "https://pay.example/s1", false⟩
    ⟨"R3", some (JsNum.finite 500), ""⟩
    ⟨"cus_1", "pm_1", ""⟩
    ⟨"authentication_required", "auth needed", some ⟨"pi_9", "requires_action"⟩⟩
    ⟨"pi_9", "requires_action"⟩ "https://pay.example/s1"
    (by decide) (by decide) (by decide) rfl (by decide) (by decide)
    rfl rfl (Or.inl rfl) rfl rfl
  exact ⟨h.1, h.2.1, h.2.2.2.1⟩

/-- C10: with no Ledger base URL configured, every /approve request with a
valid reservation id and amount is answered 400 with code
missing_customer_or_payment_method, with no processor call and no Ledger
call at all, so no charge can ever be attempted. -/
theorem C10_unconfigured_ledger_never_charges (env : ApproveEnv)
    (w : ApproveWorld) (req : ApproveReq)
    (hg : env.gasUrl = "")
    (hrid : req.reservation_id ≠ "")
    (hamt : clampedAmount req.amount_cents ≠ 0) :
    approveHandler env w req =
      ⟨400, ApproveBody.error "missing_customer_or_payment_method", [], []⟩ := by
  simp [approveHandler, hrid, hamt, hg]

/-- Closed instance of C10: with an unset Ledger URL, reservation R4 at
amount 500 is rejected with no outbound call, for a world whose Ledger
would have answered with a stored card. -/
theorem C10_unconfigured_ledger_witness :
    approveHandler ⟨"", 250, 99⟩
      ⟨Except.ok (some ⟨"cus_1", "pm_1", "acct_1"⟩), some "acct_1",
        ChargeOutcome.ok "pi_1", Except.ok "u", false⟩
      ⟨"R4", some (JsNum.finite 500), "Pier7"⟩ =
      ⟨400, ApproveBody.error "missing_customer_or_payment_method", [], []⟩ :=
  C10_unconfigured_ledger_never_charges ⟨"", 250, 99⟩
    ⟨Except.ok (some ⟨"cus_1", "pm_1", "acct_1"⟩), some "acct_1",
      ChargeOutcome.ok "pi_1", Except.ok "u", false⟩
    ⟨"R4", some (JsNum.finite 500), "Pier7"⟩
    rfl (by decide) (by decide)

end Sliprezi

